import Mathlib

/-!
Verification of the `owm` OpenWeatherMap client library.

A shallow embedding of the Go package `owm` (file `owm.go`) together with
theorems checking the natural-language specification against it.

Modelling conventions:
* Go strings are modelled by Lean `String` (the bodies and URLs at issue are
  ASCII, so Go's byte indexing coincides with character indexing).
* Go `float64` coordinate inputs are modelled by their exact rational values
  (`ℚ`); `strconv.FormatFloat(x, 'f', 2, 64)` is modelled by decimal rounding
  of that rational to two fractional digits (`formatFixed2`).
* The external transport (`http.Get` + `ioutil.ReadAll`) and the external
  structural decoder (`json.Unmarshal`) are passed to the fetch-and-decode
  routines as function parameters; the routines themselves are translated
  line by line from the source.
* A Go runtime panic (out-of-range string slice, out-of-range index) is
  modelled by `Option.none`.
-/

namespace Owm

/-! ## Strings: Go `strings.Contains` and suffix test -/

/-- One step of Go's `strings.Contains`: does `sub` occur as a contiguous
run inside the list, checked at every start position. -/
def goContainsAux (sub : List Char) : List Char → Bool
  | [] => sub.isEmpty
  | c :: rest => sub.isPrefixOf (c :: rest) || goContainsAux sub rest

/-- Model of Go `strings.Contains s sub`. -/
def goContains (s sub : String) : Bool :=
  goContainsAux sub.data s.data

/-- Go's byte-wise lowercasing used for case-insensitive key matching
(`strings.EqualFold` restricted to the ASCII keys at issue). -/
def lowerStr (s : String) : String :=
  ⟨s.data.map Char.toLower⟩

/-- Model of Go `strings.HasSuffix` / "the URL ends with …". -/
def goHasSuffix (s suffix : String) : Bool :=
  suffix.data.isSuffixOf s.data

/-! ## Client -/

/-- Go struct `Client`: API key plus fixed base URL. -/
structure Client where
  key : String
  baseURL : String
deriving DecidableEq

/-- Go `NewClient`: stores the key verbatim and the hardcoded base URL. -/
def NewClient (key : String) : Client :=
  ⟨key, "http://api.openweathermap.org/data/2.5/"⟩

/-- The `&APPID=` append done at the top of `weather`, `weatherSet` and
`forecast`: only when the key is non-empty. -/
def appidURL (c : Client) (url : String) : String :=
  if c.key ≠ "" then url ++ "&APPID=" ++ c.key else url

/-! ## Fixed two-decimal float formatting

Modelled from the library call `strconv.FormatFloat(x, 'f', 2, 64)`:
the `float64` input is represented by its exact rational value and the
fixed-point rendering by decimal rounding to two fractional digits. -/

/-- The two decimal digits of `d < 100`, most significant first. -/
def twoDigits (d : Nat) : String :=
  ⟨[Nat.digitChar (d / 10), Nat.digitChar (d % 10)]⟩

/-- Renders the rounded integer `n` of hundredths as a fixed-point numeral:
sign, integer part, a decimal point, then exactly two fractional digits. -/
def formatFixed2Aux (n : ℤ) : String :=
  (if n < 0 then "-" else "") ++ toString (n.natAbs / 100) ++ "." ++ twoDigits (n.natAbs % 100)

/-- Model of `strconv.FormatFloat(x, 'f', 2, 64)`: round the value to a whole
number of hundredths and render it with two digits after the point. -/
def formatFixed2 (q : ℚ) : String :=
  formatFixed2Aux (round (q * 100))

/-! ## Data model

Translated from the Go struct declarations in `owm.go`; Go `float64`
measurement fields are modelled by `ℚ`, Go `int` by `ℤ`. -/

/-- Go struct `weatherLine`: one condition descriptor. -/
structure WeatherLine where
  Id : ℤ
  Main : String
  Description : String
  Icon : String
deriving DecidableEq

/-- The anonymous `Coord` struct of `Weather` (fields `Lat`, `Lon`). -/
structure WCoord where
  Lat : ℚ
  Lon : ℚ
deriving DecidableEq

/-- The anonymous `Sys` struct of `Weather`; the Go field `Type` is rendered
`type'` because `Type` is reserved in Lean. -/
structure WSys where
  type' : ℤ
  Id : ℤ
  Country : String
  Sunrise : ℤ
  Sunset : ℤ
deriving DecidableEq

/-- The anonymous `Main` struct of `Weather`. -/
structure WMain where
  Temp : ℚ
  Humidity : ℤ
  TempMin : ℚ
  TempMax : ℚ
  Pressure : ℚ
  SeaLevel : ℚ
  GrndLevel : ℚ
deriving DecidableEq

/-- The anonymous `Wind` struct of `Weather`. -/
structure WWind where
  Speed : ℚ
  Deg : ℚ
  Gust : ℚ
deriving DecidableEq

/-- The anonymous `Clouds` struct of `Weather`. -/
structure WClouds where
  All : ℤ
deriving DecidableEq

/-- Go struct `Weather`: the current weather at a location. -/
structure Weather where
  Coord : WCoord
  Sys : WSys
  Weather : List WeatherLine
  Base : String
  Main : WMain
  Wind : WWind
  Clouds : WClouds
  Dt : ℤ
  Id : ℤ
  Name : String
  Cod : ℤ
deriving DecidableEq

/-- Go zero value of `WCoord`. -/
def zeroWCoord : WCoord := ⟨0, 0⟩

/-- Go zero value of `WSys`. -/
def zeroWSys : WSys := ⟨0, 0, "", 0, 0⟩

/-- Go zero value of `WMain`. -/
def zeroWMain : WMain := ⟨0, 0, 0, 0, 0, 0, 0⟩

/-- Go zero value of `WWind`. -/
def zeroWWind : WWind := ⟨0, 0, 0⟩

/-- Go zero value of `WClouds`. -/
def zeroWClouds : WClouds := ⟨0⟩

/-- Go zero value of `Weather` (what `var w Weather` starts from). -/
def zeroWeather : Weather :=
  ⟨zeroWCoord, zeroWSys, [], "", zeroWMain, zeroWWind, zeroWClouds, 0, 0, "", 0⟩

/-- Go struct `weatherSet`: a count plus a list of `Weather`. -/
structure WeatherSet where
  Cnt : ℤ
  Weather : List Weather
deriving DecidableEq

/-- The anonymous `City` struct of `Forecast` (its `Coord` lists `Lon` before
`Lat` in the source; the fields are the same). -/
structure FCity where
  Id : ℤ
  Name : String
  Coord : WCoord
  Country : String
deriving DecidableEq

/-- Go struct `Forecast`. -/
structure Forecast where
  Cod : String
  City : FCity
  Cnt : ℤ
  Weather : List Weather
deriving DecidableEq

/-- Go zero value of `Forecast`. -/
def zeroForecast : Forecast := ⟨"", ⟨0, "", zeroWCoord, ""⟩, 0, []⟩

/-! ## Fetch-and-decode routines

`http.Get` plus `ioutil.ReadAll` are modelled by a `fetch` parameter
(`Except Unit String`: transport failure or the body bytes); `json.Unmarshal`
by an `unmarshal` parameter. The error type is `String` because the Go code
reports every failure as `errors.New` of a fixed message, and the message is
the only thing a caller can inspect. -/

/-- The not-found marker the routines search the raw body for. -/
def notFoundMarker : String := "\"cod\":\"404\""

/-- Error message used by `data`, `weather` and `weatherSet` on transport
failure or a body carrying the not-found marker. -/
def fetchWeatherErr : String := "owm: error while fetching weather data"

/-- Error message used by `weather`/`weatherSet` when `json.Unmarshal` fails. -/
def decodeWeatherErr : String := "owm: error while decoding weather data"

/-- Error message used by `forecast` on transport failure or not-found. -/
def fetchForecastErr : String := "owm: error while fetching forecast data"

/-- Error message used by `forecast` when `json.Unmarshal` fails. -/
def decodeForecastErr : String := "owm: error while decoding forecast data"

/-- Go method `data`: fetch the URL, turning any transport failure into the
fixed fetch-failure message. -/
def dataGo (fetch : String → Except Unit String) (url : String) :
    Except String String :=
  match fetch url with
  | .error _ => .error fetchWeatherErr
  | .ok body => .ok body

/-- Go method `weather`: append `&APPID=` for a non-empty key, fetch, fail
with the fetch message on transport error or a body containing the not-found
marker, otherwise decode. -/
def weatherGo (c : Client) (url : String) (fetch : String → Except Unit String)
    (unmarshal : String → Except Unit Weather) : Except String Weather :=
  let url := appidURL c url
  match dataGo fetch url with
  | .error _ => .error fetchWeatherErr
  | .ok body =>
    if goContains body notFoundMarker then .error fetchWeatherErr
    else
      match unmarshal body with
      | .error _ => .error decodeWeatherErr
      | .ok w => .ok w

/-- Go method `weatherSet`: same shape as `weather` with the collection type. -/
def weatherSetGo (c : Client) (url : String)
    (fetch : String → Except Unit String)
    (unmarshal : String → Except Unit WeatherSet) : Except String WeatherSet :=
  let url := appidURL c url
  match dataGo fetch url with
  | .error _ => .error fetchWeatherErr
  | .ok body =>
    if goContains body notFoundMarker then .error fetchWeatherErr
    else
      match unmarshal body with
      | .error _ => .error decodeWeatherErr
      | .ok ws => .ok ws

/-- Go method `forecast`: same shape with the forecast messages. -/
def forecastGo (c : Client) (url : String)
    (fetch : String → Except Unit String)
    (unmarshal : String → Except Unit Forecast) : Except String Forecast :=
  let url := appidURL c url
  match dataGo fetch url with
  | .error _ => .error fetchForecastErr
  | .ok body =>
    if goContains body notFoundMarker then .error fetchForecastErr
    else
      match unmarshal body with
      | .error _ => .error decodeForecastErr
      | .ok f => .ok f

/-! ## URL assembly of the public query methods

Each `*URL` definition is the URL string the corresponding Go method passes
to `weather`/`weatherSet`/`forecast` (before the `&APPID=` append that those
routines perform); `strconv.Itoa` is modelled by `toString : ℤ → String`
(both render signed decimal). -/

/-- URL built by `WeatherByName`. -/
def weatherByNameURL (c : Client) (name units : String) : String :=
  c.baseURL ++ "weather" ++ "?q=" ++ name ++ "&units=" ++ units

/-- The URL `WeatherByName` actually fetches, after the `&APPID=` step
performed inside `weather`. -/
def weatherByNameRequestURL (c : Client) (name units : String) : String :=
  appidURL c (weatherByNameURL c name units)

/-- URL built by `WeatherById`. -/
def weatherByIdURL (c : Client) (id : ℤ) (units : String) : String :=
  c.baseURL ++ "weather" ++ "?id=" ++ toString id ++ "&units=" ++ units

/-- URL built by `WeatherByCoord`. -/
def weatherByCoordURL (c : Client) (lat lon : ℚ) (units : String) : String :=
  c.baseURL ++ "weather" ++ "?lat=" ++ formatFixed2 lat ++
    "&lon=" ++ formatFixed2 lon ++ "&units=" ++ units

/-- URL built by `WeatherByZone`. -/
def weatherByZoneURL (c : Client) (lat1 lon1 lat2 lon2 : ℚ) (zoom : ℤ)
    (units : String) : String :=
  c.baseURL ++ "box/city" ++ "?bbox=" ++
    formatFixed2 lat1 ++ "," ++
    formatFixed2 lon1 ++ "," ++
    formatFixed2 lat2 ++ "," ++
    formatFixed2 lon2 ++ "," ++
    toString zoom ++ "&units=" ++ units

/-- URL built by `WeatherByRadius`; the source appends a bare `","` after the
`lat` and `lon` values and puts the radius in the `cnt` slot, and this
embedding reproduces both verbatim. -/
def weatherByRadiusURL (c : Client) (lat lon radius : ℚ) (units : String) :
    String :=
  c.baseURL ++ "find" ++ "?lat=" ++ formatFixed2 lat ++ "," ++
    "&lon=" ++ formatFixed2 lon ++ "," ++
    "&cnt=" ++ formatFixed2 radius ++ "&units=" ++ units

/-- The id-joining loop of `WeatherByIds`:
`for i := range id { ids += strconv.Itoa(id[i]) + "," }`. -/
def idsJoined (id : List ℤ) : String :=
  id.foldl (fun acc i => acc ++ toString i ++ ",") ""

/-- Go string slicing `s[:j]`: in bounds for `0 ≤ j ≤ len(s)`, otherwise a
runtime panic, modelled by `none`. -/
def goSliceTo (s : String) (j : ℤ) : Option String :=
  if 0 ≤ j ∧ j ≤ (s.data.length : ℤ) then some ⟨s.data.take j.toNat⟩ else none

/-- URL built by `WeatherByIds`; `none` models the panic of
`ids[:len(ids)-1]` when that slice is out of range. -/
def weatherByIdsURL (c : Client) (id : List ℤ) (units : String) :
    Option String :=
  match goSliceTo (idsJoined id) ((idsJoined id).data.length - 1) with
  | none => none
  | some ids => some (c.baseURL ++ "group" ++ "?id=" ++ ids ++ "&units=" ++ units)

/-- URL built by `ForecastByName`: the daily branch of the source reads
`"forecasti/daily"`, reproduced verbatim here. -/
def forecastByNameURL (c : Client) (name : String) (days : ℤ) (units : String) :
    String :=
  if days > 0 then
    c.baseURL ++ "forecasti/daily" ++ "?q=" ++ name ++
      "&cnt=" ++ toString days ++ "&units=" ++ units
  else
    c.baseURL ++ "forecast" ++ "?q=" ++ name ++ "&units=" ++ units

/-- URL built by `ForecastById`. -/
def forecastByIdURL (c : Client) (id days : ℤ) (units : String) : String :=
  if days > 0 then
    c.baseURL ++ "forecast/daily" ++ "?id=" ++ toString id ++
      "&cnt=" ++ toString days ++ "&units=" ++ units
  else
    c.baseURL ++ "forecast" ++ "?id=" ++ toString id ++ "&units=" ++ units

/-- URL built by `ForecastByCoord`. -/
def forecastByCoordURL (c : Client) (lat lon : ℚ) (days : ℤ) (units : String) :
    String :=
  if days > 0 then
    c.baseURL ++ "forecast/daily" ++ "?lat=" ++ formatFixed2 lat ++
      "&lon=" ++ formatFixed2 lon ++ "&cnt=" ++ toString days ++
      "&units=" ++ units
  else
    c.baseURL ++ "forecast" ++ "?lat=" ++ formatFixed2 lat ++
      "&lon=" ++ formatFixed2 lon ++ "&units=" ++ units

/-- The comma-join the spec describes: the rendered ids in order, separated
by single commas, with no leading and no trailing comma. -/
def commaJoin : List String → String
  | [] => ""
  | [x] => x
  | x :: y :: rest => x ++ "," ++ commaJoin (y :: rest)

/-- The fractional part of a fixed-point numeral: the characters after the
last `'.'`. -/
def fracPart (s : String) : List Char :=
  s.data.reverse.takeWhile (fun c => c != '.')

/-- Model of the `String` method of `Weather` (from the project revision
that carries it): it formats the fields with Sprintf, reading the element at
index 0 of the condition list four times; the index access on an empty list
is a runtime panic, modelled by `none`.  Sprintf rendering of timestamps and
floats is abstracted by the total parameters `showTime` and `showFloat`. -/
def weatherStringGo (showTime : ℤ → String) (showFloat : ℚ → String)
    (w : Weather) : Option String :=
  match w.Weather with
  | [] => none
  | w0 :: _ =>
    some ("Date: " ++ showTime w.Dt ++ "\n" ++
      "Id: " ++ toString w.Id ++ "\n" ++
      "Name: " ++ w.Name ++ "\n" ++
      "Country: " ++ w.Sys.Country ++ "\n" ++
      "Sunrise: " ++ showTime w.Sys.Sunrise ++ "\n" ++
      "Sunset: " ++ showTime w.Sys.Sunset ++ "\n" ++
      "Lat: " ++ showFloat w.Coord.Lat ++ "\n" ++
      "Lon: " ++ showFloat w.Coord.Lon ++ "\n" ++
      "Weather Id: " ++ toString w0.Id ++ "\n" ++
      "Weather Main: " ++ w0.Main ++ "\n" ++
      "Weather Description: " ++ w0.Description ++ "\n" ++
      "Weather Icon: " ++ w0.Icon ++ "\n" ++
      "Temp: " ++ showFloat w.Main.Temp ++ "\n" ++
      "Humidity: " ++ toString w.Main.Humidity ++ "\n" ++
      "Temp Min: " ++ showFloat w.Main.TempMin ++ "\n" ++
      "Temp Max: " ++ showFloat w.Main.TempMax ++ "\n" ++
      "Pressure: " ++ showFloat w.Main.Pressure ++ "\n" ++
      "Sea Level: " ++ showFloat w.Main.SeaLevel ++ "\n" ++
      "Ground Level: " ++ showFloat w.Main.GrndLevel ++ "\n" ++
      "Wind Speed: " ++ showFloat w.Wind.Speed ++ "\n" ++
      "Wind Direction: " ++ showFloat w.Wind.Deg ++ "\n" ++
      "Wind Gust: " ++ showFloat w.Wind.Gust ++ "\n" ++
      "Cloudiness: " ++ toString w.Clouds.All)

/-! ## Structural JSON decoding

`json.Unmarshal` is Go standard-library code; what the claims need is its
struct-mapping semantics for the record shapes above, modelled here on an
already-lexed JSON value: unknown keys are ignored, a missing key leaves the
Go zero value, `null` leaves the value unchanged, a present key of the wrong
shape is a type error, and keys are matched case-insensitively with an
exact match preferred (Go matches the `json:` tag where the source declares
one, the field name otherwise). -/

/-- An already-lexed JSON value. -/
inductive Json where
  | null
  | bool (b : Bool)
  | num (q : ℚ)
  | str (s : String)
  | arr (xs : List Json)
  | obj (kvs : List (String × Json))

/-- First value in the object whose key satisfies the predicate. -/
def findKey (p : String → Bool) : List (String × Json) → Option Json
  | [] => none
  | (k, v) :: rest => if p k then some v else findKey p rest

/-- Go key resolution: an exact match on the effective field key is
preferred, otherwise the first case-insensitive match. -/
def lookupGo (kvs : List (String × Json)) (key : String) : Option Json :=
  match findKey (fun k => k == key) kvs with
  | some v => some v
  | none => findKey (fun k => lowerStr k == lowerStr key) kvs

/-- Decode one named field: an absent key leaves the zero value, a present
key is decoded by `dec`. -/
def decodeField {α : Type} (kvs : List (String × Json)) (key : String)
    (dec : Json → Except Unit α) (zero : α) : Except Unit α :=
  match lookupGo kvs key with
  | none => .ok zero
  | some v => dec v

/-- Decode into a string field; `null` leaves the zero value. -/
def decString : Json → Except Unit String
  | .null => .ok ""
  | .str s => .ok s
  | _ => .error ()

/-- Decode into an int field; a fractional number is a type error. -/
def decInt : Json → Except Unit ℤ
  | .null => .ok 0
  | .num q => if q.den = 1 then .ok q.num else .error ()
  | _ => .error ()

/-- Decode into a float field. -/
def decFloat : Json → Except Unit ℚ
  | .null => .ok 0
  | .num q => .ok q
  | _ => .error ()

/-- Decode the nested `Coord` struct. -/
def decodeWCoord : Json → Except Unit WCoord
  | .null => .ok zeroWCoord
  | .obj kvs =>
    (decodeField kvs "Lat" decFloat 0).bind fun lat =>
    (decodeField kvs "Lon" decFloat 0).bind fun lon =>
    .ok ⟨lat, lon⟩
  | _ => .error ()

/-- Decode the nested `Sys` struct. -/
def decodeWSys : Json → Except Unit WSys
  | .null => .ok zeroWSys
  | .obj kvs =>
    (decodeField kvs "Type" decInt 0).bind fun t =>
    (decodeField kvs "Id" decInt 0).bind fun id =>
    (decodeField kvs "Country" decString "").bind fun country =>
    (decodeField kvs "Sunrise" decInt 0).bind fun sunrise =>
    (decodeField kvs "Sunset" decInt 0).bind fun sunset =>
    .ok ⟨t, id, country, sunrise, sunset⟩
  | _ => .error ()

/-- Decode one condition descriptor (`weatherLine`). -/
def decodeWeatherLine : Json → Except Unit WeatherLine
  | .null => .ok ⟨0, "", "", ""⟩
  | .obj kvs =>
    (decodeField kvs "Id" decInt 0).bind fun id =>
    (decodeField kvs "Main" decString "").bind fun main =>
    (decodeField kvs "Description" decString "").bind fun descr =>
    (decodeField kvs "Icon" decString "").bind fun icon =>
    .ok ⟨id, main, descr, icon⟩
  | _ => .error ()

/-- Decode the condition-descriptor slice; `null` decodes to the nil slice. -/
def decodeWeatherLines : Json → Except Unit (List WeatherLine)
  | .null => .ok []
  | .arr xs => xs.mapM decodeWeatherLine
  | _ => .error ()

/-- Decode the nested `Main` struct; `temp_min`, `temp_max`, `sea_level` and
`grnd_level` carry `json:` tags in the source. -/
def decodeWMain : Json → Except Unit WMain
  | .null => .ok zeroWMain
  | .obj kvs =>
    (decodeField kvs "Temp" decFloat 0).bind fun temp =>
    (decodeField kvs "Humidity" decInt 0).bind fun humidity =>
    (decodeField kvs "temp_min" decFloat 0).bind fun tempMin =>
    (decodeField kvs "temp_max" decFloat 0).bind fun tempMax =>
    (decodeField kvs "Pressure" decFloat 0).bind fun pressure =>
    (decodeField kvs "sea_level" decFloat 0).bind fun seaLevel =>
    (decodeField kvs "grnd_level" decFloat 0).bind fun grndLevel =>
    .ok ⟨temp, humidity, tempMin, tempMax, pressure, seaLevel, grndLevel⟩
  | _ => .error ()

/-- Decode the nested `Wind` struct. -/
def decodeWWind : Json → Except Unit WWind
  | .null => .ok zeroWWind
  | .obj kvs =>
    (decodeField kvs "Speed" decFloat 0).bind fun speed =>
    (decodeField kvs "Deg" decFloat 0).bind fun deg =>
    (decodeField kvs "Gust" decFloat 0).bind fun gust =>
    .ok ⟨speed, deg, gust⟩
  | _ => .error ()

/-- Decode the nested `Clouds` struct. -/
def decodeWClouds : Json → Except Unit WClouds
  | .null => .ok zeroWClouds
  | .obj kvs =>
    (decodeField kvs "All" decInt 0).bind fun all =>
    .ok ⟨all⟩
  | _ => .error ()

/-- Modelled from Go `json.Unmarshal` into the `Weather` struct: every field
is looked up independently by its effective key; a missing field keeps the
zero value. -/
def unmarshalWeather : Json → Except Unit Weather
  | .null => .ok zeroWeather
  | .obj kvs =>
    (decodeField kvs "Coord" decodeWCoord zeroWCoord).bind fun coord =>
    (decodeField kvs "Sys" decodeWSys zeroWSys).bind fun sys =>
    (decodeField kvs "Weather" decodeWeatherLines []).bind fun wl =>
    (decodeField kvs "Base" decString "").bind fun base =>
    (decodeField kvs "Main" decodeWMain zeroWMain).bind fun main =>
    (decodeField kvs "Wind" decodeWWind zeroWWind).bind fun wind =>
    (decodeField kvs "Clouds" decodeWClouds zeroWClouds).bind fun clouds =>
    (decodeField kvs "Dt" decInt 0).bind fun dt =>
    (decodeField kvs "Id" decInt 0).bind fun id =>
    (decodeField kvs "Name" decString "").bind fun name =>
    (decodeField kvs "Cod" decInt 0).bind fun cod =>
    .ok ⟨coord, sys, wl, base, main, wind, clouds, dt, id, name, cod⟩
  | _ => .error ()

/-- Equality of `Except` results is decidable, so concrete decodings can be
checked by evaluation. -/
instance exceptDecEq {ε α : Type} [DecidableEq ε] [DecidableEq α] :
    DecidableEq (Except ε α) := fun a b =>
  match a, b with
  | .error e, .error e' => decidable_of_iff (e = e') (by simp)
  | .ok x, .ok y => decidable_of_iff (x = y) (by simp)
  | .error _, .ok _ => isFalse (by simp)
  | .ok _, .error _ => isFalse (by simp)

/-- The keys of an object are pairwise distinct up to Go's case-insensitive
matching (true of every service response at issue). -/
def ciDistinctKeys (kvs : List (String × Json)) : Prop :=
  kvs.Pairwise (fun a b => lowerStr a.1 ≠ lowerStr b.1)

/-! ## Theorems -/

theorem goContainsAux_nil (l : List Char) : goContainsAux [] l = true := by
  cases l <;> simp [goContainsAux]

theorem goContainsAux_append (sub pre post : List Char) :
    goContainsAux sub (pre ++ (sub ++ post)) = true := by
  induction pre with
  | nil =>
    cases sub with
    | nil => simp [goContainsAux_nil]
    | cons c t =>
      simp only [List.nil_append, List.cons_append, goContainsAux, Bool.or_eq_true]
      left
      simp [ List.isPrefixOf_iff_prefix]
  | cons a pre ih =>
    simp only [List.cons_append, goContainsAux, Bool.or_eq_true]
    right
    exact ih

/-- If a string is literally built with `sub` in the middle, Go's
`strings.Contains` finds it. -/
theorem goContains_append (a b c : String) :
    goContains (a ++ b ++ c) b = true := by
  have : (a ++ b ++ c).data = a.data ++ (b.data ++ c.data) := by
    simp [String.data_append]
  simp only [goContains, this]
  exact goContainsAux_append b.data a.data c.data

theorem goHasSuffix_append (a b : String) :
    goHasSuffix (a ++ b) b = true := by
  simp only [goHasSuffix, String.data_append, List.isSuffixOf_iff_suffix]
  exact ⟨a.data, rfl⟩

theorem idsJoined_foldl_data (l : List ℤ) (acc : String) :
    (l.foldl (fun a i => a ++ toString i ++ ",") acc).data =
      acc.data ++ (l.map (fun i => (toString i).data ++ [','])).flatten := by
  induction l generalizing acc with
  | nil => simp
  | cons i t ih =>
    simp only [List.foldl_cons, List.map_cons, List.flatten_cons, ih,
      String.data_append, List.append_assoc]

theorem join_chunks_eq_commaJoin (l : List ℤ) (h : l ≠ []) :
    (l.map (fun i => (toString i).data ++ [','])).flatten =
      (commaJoin (l.map (fun i => toString i))).data ++ [','] := by
  induction l with
  | nil => exact absurd rfl h
  | cons i t ih =>
    cases t with
    | nil => simp [commaJoin]
    | cons j t' =>
      have ih' := ih (by simp)
      simp only [List.map_cons, List.flatten_cons, commaJoin, String.data_append,
        List.append_assoc] at ih' ⊢
      rw [← ih']

theorem idsJoined_data (l : List ℤ) (h : l ≠ []) :
    (idsJoined l).data = (commaJoin (l.map (fun i => toString i))).data ++ [','] := by
  rw [idsJoined, idsJoined_foldl_data, join_chunks_eq_commaJoin l h]
  rfl

theorem weatherByIdsURL_eq_commaJoin (c : Client) (id : List ℤ) (units : String)
    (h : id ≠ []) :
    weatherByIdsURL c id units =
      some (c.baseURL ++ "group" ++ "?id=" ++
        commaJoin (id.map (fun i => toString i)) ++ "&units=" ++ units) := by
  have hd := idsJoined_data id h
  have hlen : (idsJoined id).data.length =
      (commaJoin (id.map (fun i => toString i))).data.length + 1 := by
    rw [hd]; simp
  rw [weatherByIdsURL, goSliceTo]
  rw [if_pos (by constructor <;> omega)]
  have htake : (idsJoined id).data.take
      (((idsJoined id).data.length : ℤ) - 1).toNat =
      (commaJoin (id.map (fun i => toString i))).data := by
    have : (((idsJoined id).data.length : ℤ) - 1).toNat =
        (commaJoin (id.map (fun i => toString i))).data.length := by omega
    rw [this, hd, List.take_left' rfl]
  rw [htake]

theorem goContains_append₂ (a b : String) : goContains (a ++ b) b = true := by
  have h := goContainsAux_append b.data a.data []
  simpa [goContains, String.data_append] using h

theorem weatherByNameURL_decomp (c : Client) (name units : String) :
    weatherByNameURL c name units =
      c.baseURL ++ ("weather?q=" ++ name ++ ("&units=" ++ units)) := by
  rw [show ("weather?q=" : String) = "weather" ++ "?q=" from rfl]
  simp [weatherByNameURL, String.append_assoc]

theorem formatFixed2Aux_data (n : ℤ) :
    (formatFixed2Aux n).data =
      ((if n < 0 then "-" else "") ++ toString (n.natAbs / 100)).data ++
        '.' :: [Nat.digitChar (n.natAbs % 100 / 10),
                Nat.digitChar (n.natAbs % 100 % 10)] := by
  simp only [formatFixed2Aux, twoDigits, String.data_append, List.append_assoc]
  rfl

theorem formatFixed2_frac (q : ℚ) :
    '.' ∈ (formatFixed2 q).data ∧ (fracPart (formatFixed2 q)).length = 2 := by
  have hne : ∀ m : Nat, m < 10 → (Nat.digitChar m != '.') = true := by decide
  have hdata := formatFixed2Aux_data (round (q * 100))
  have h1 : (round (q * 100)).natAbs % 100 / 10 < 10 := by omega
  have h2 : (round (q * 100)).natAbs % 100 % 10 < 10 := by omega
  constructor
  · rw [formatFixed2, hdata]
    simp
  · rw [fracPart, formatFixed2, hdata, List.reverse_append]
    simp only [List.reverse_cons, List.reverse_nil, List.nil_append,
      List.cons_append, List.append_assoc]
    rw [@List.takeWhile_cons_of_pos Char (fun c => c != '.') _ _ (hne _ h2),
      @List.takeWhile_cons_of_pos Char (fun c => c != '.') _ _ (hne _ h1),
      @List.takeWhile_cons_of_neg Char (fun c => c != '.') '.' _ (by decide)]
    rfl

theorem weatherByCoordURL_decomp (c : Client) (lat lon : ℚ) (units : String) :
    weatherByCoordURL c lat lon units =
      (c.baseURL ++ "weather") ++
        ("?lat=" ++ formatFixed2 lat ++ "&lon=" ++ formatFixed2 lon) ++
        ("&units=" ++ units) := by
  simp only [weatherByCoordURL, String.append_assoc]

theorem forecastByCoordURL_decomp (c : Client) (lat lon : ℚ) (days : ℤ)
    (units : String) :
    forecastByCoordURL c lat lon days units =
      (c.baseURL ++ (if days > 0 then "forecast/daily" else "forecast")) ++
        ("?lat=" ++ formatFixed2 lat ++ "&lon=" ++ formatFixed2 lon) ++
        (if days > 0 then "&cnt=" ++ toString days ++ "&units=" ++ units
         else "&units=" ++ units) := by
  by_cases hd : days > 0
  · simp only [forecastByCoordURL, if_pos hd, String.append_assoc]
  · simp only [forecastByCoordURL, if_neg hd, String.append_assoc]

theorem weatherByZoneURL_decomp (c : Client) (lat1 lon1 lat2 lon2 : ℚ)
    (zoom : ℤ) (units : String) :
    weatherByZoneURL c lat1 lon1 lat2 lon2 zoom units =
      (c.baseURL ++ "box/city") ++
        ("?bbox=" ++ formatFixed2 lat1 ++ "," ++ formatFixed2 lon1 ++ "," ++
          formatFixed2 lat2 ++ "," ++ formatFixed2 lon2) ++
        ("," ++ toString zoom ++ "&units=" ++ units) := by
  simp only [weatherByZoneURL, String.append_assoc]

theorem weatherByRadiusURL_decomp₁ (c : Client) (lat lon radius : ℚ)
    (units : String) :
    weatherByRadiusURL c lat lon radius units =
      (c.baseURL ++ "find") ++ ("?lat=" ++ formatFixed2 lat) ++
        ("," ++ "&lon=" ++ formatFixed2 lon ++ "," ++ "&cnt=" ++
          formatFixed2 radius ++ "&units=" ++ units) := by
  simp only [weatherByRadiusURL, String.append_assoc]

theorem weatherByRadiusURL_decomp₂ (c : Client) (lat lon radius : ℚ)
    (units : String) :
    weatherByRadiusURL c lat lon radius units =
      (c.baseURL ++ "find" ++ "?lat=" ++ formatFixed2 lat ++ ",") ++
        ("&lon=" ++ formatFixed2 lon) ++
        ("," ++ "&cnt=" ++ formatFixed2 radius ++ "&units=" ++ units) := by
  simp only [weatherByRadiusURL, String.append_assoc]

theorem weatherByRadiusURL_decomp₃ (c : Client) (lat lon radius : ℚ)
    (units : String) :
    weatherByRadiusURL c lat lon radius units =
      (c.baseURL ++ "find" ++ "?lat=" ++ formatFixed2 lat ++ "," ++
          "&lon=" ++ formatFixed2 lon ++ ",") ++
        ("&cnt=" ++ formatFixed2 radius) ++ ("&units=" ++ units) := by
  simp only [weatherByRadiusURL, String.append_assoc]

/-! ## The claims -/

/-- C1 (code bug): the spec and the claim say the positive-days branch of
`ForecastByName` selects the daily resource path `forecast/daily`, but the
source builds `forecasti/daily` (a typo: the sibling methods `ForecastById`
and `ForecastByCoord` both use `forecast/daily`).  At days = 4 the built URL
carries `forecasti/daily` and does not contain `forecast/daily` at all; the
hourly branch at days = 0 selects `forecast` as claimed. -/
theorem claim_C1_forecastByName_daily_path :
    forecastByNameURL (NewClient "") "Lisbon" 4 "metric" =
      "http://api.openweathermap.org/data/2.5/forecasti/daily?q=Lisbon&cnt=4&units=metric" ∧
    goContains (forecastByNameURL (NewClient "") "Lisbon" 4 "metric")
      "forecast/daily" = false ∧
    forecastByNameURL (NewClient "") "Lisbon" 0 "metric" =
      "http://api.openweathermap.org/data/2.5/forecast?q=Lisbon&units=metric" :=
  ⟨by decide, by decide, by decide⟩

/-- C4: `WeatherByName` builds a request URL containing
`weather?q=<name>&units=<units>`; the fetched URL is the built URL with
`&APPID=<key>` appended exactly when the key is non-empty (an empty key
appends nothing), so a non-empty key makes the URL end in `&APPID=<key>`. -/
theorem claim_C4_weatherByName_url (key base name units : String) :
    goContains (weatherByNameRequestURL ⟨key, base⟩ name units)
      ("weather?q=" ++ name ++ ("&units=" ++ units)) = true ∧
    weatherByNameRequestURL ⟨key, base⟩ name units =
      (if key = "" then weatherByNameURL ⟨key, base⟩ name units
       else weatherByNameURL ⟨key, base⟩ name units ++ "&APPID=" ++ key) ∧
    (key = "" ∨
      goHasSuffix (weatherByNameRequestURL ⟨key, base⟩ name units)
        ("&APPID=" ++ key) = true) := by
  have hdecomp := weatherByNameURL_decomp ⟨key, base⟩ name units
  by_cases hk : key = ""
  · subst hk
    refine ⟨?_, ?_, Or.inl rfl⟩
    · rw [weatherByNameRequestURL, appidURL]
      simp only [ne_eq, not_true_eq_false, if_neg]
      rw [hdecomp]
      exact goContains_append₂ _ _
    · simp [weatherByNameRequestURL, appidURL]
  · have hshape : weatherByNameRequestURL ⟨key, base⟩ name units =
        weatherByNameURL ⟨key, base⟩ name units ++ "&APPID=" ++ key := by
      simp [weatherByNameRequestURL, appidURL, hk]
    refine ⟨?_, ?_, Or.inr ?_⟩
    · rw [hshape, hdecomp, String.append_assoc _ "&APPID=" key]
      exact goContains_append _ _ _
    · simp [hshape, hk]
    · rw [hshape, String.append_assoc]
      exact goHasSuffix_append _ _

/-- C5: for a non-empty id list, the id parameter of the URL built by
`WeatherByIds` is the ids rendered in order in decimal, joined by single
commas with no leading or trailing comma; at the listed concrete input the
id parameter is `2267057,2735943,2268339`. -/
theorem claim_C5_weatherByIds_id_param :
    (∀ (c : Client) (id : List ℤ) (units : String), id ≠ [] →
      weatherByIdsURL c id units =
        some (c.baseURL ++ "group" ++ "?id=" ++
          commaJoin (id.map (fun i => toString i)) ++ "&units=" ++ units)) ∧
    weatherByIdsURL (NewClient "") [2267057, 2735943, 2268339] "metric" =
      some "http://api.openweathermap.org/data/2.5/group?id=2267057,2735943,2268339&units=metric" :=
  ⟨weatherByIdsURL_eq_commaJoin, by decide⟩

/-- Witness for C5 at the concrete input of the claim. -/
theorem claim_C5_witness :
    weatherByIdsURL (NewClient "k") [2267057, 2735943, 2268339] "metric" =
      some ((NewClient "k").baseURL ++ "group" ++ "?id=" ++
        commaJoin ([(2267057 : ℤ), 2735943, 2268339].map (fun i => toString i)) ++
        "&units=" ++ "metric") :=
  claim_C5_weatherByIds_id_param.1 (NewClient "k") [2267057, 2735943, 2268339]
    "metric" (by decide)

/-- C6 (code bug): `WeatherByRadius` does use resource path `find` and puts
the radius into the `cnt` parameter slot, but the source appends a stray
`","` after the `lat` and the `lon` values (copied from the bbox builder),
so those parameter values are not just the formatted numbers: at
lat = 40.71, lon = -74.01, radius = 10 the URL carries
`lat=40.71,&lon=-74.01,&cnt=10.00`. -/
theorem claim_C6_weatherByRadius_stray_comma :
    weatherByRadiusURL (NewClient "") (4071 / 100) (-7401 / 100) 10 "metric" =
      "http://api.openweathermap.org/data/2.5/find?lat=40.71,&lon=-74.01,&cnt=10.00&units=metric" ∧
    goContains
      (weatherByRadiusURL (NewClient "") (4071 / 100) (-7401 / 100) 10 "metric")
      "lat=40.71,&lon=-74.01,&cnt=10.00" = true := by
  have h1 : round ((4071 / 100 : ℚ) * 100) = 4071 := by rw [round_eq]; norm_num
  have h2 : round ((-7401 / 100 : ℚ) * 100) = -7401 := by
    rw [round_eq]; norm_num
  have h3 : round ((10 : ℚ) * 100) = 1000 := by rw [round_eq]; norm_num
  refine ⟨?_, ?_⟩ <;>
  · simp only [weatherByRadiusURL, formatFixed2, h1, h2, h3]
    decide

/-- C7: every coordinate value a coordinate-based query embeds in its URL is
rendered by the fixed two-decimal formatter: the formatter's output always
has a decimal point followed by exactly two digits (40.712345 renders as
"40.71"), and each of `WeatherByCoord`, `ForecastByCoord`, `WeatherByZone`
and `WeatherByRadius` embeds exactly those rendered values. -/
theorem claim_C7_two_decimal_coordinates :
    (∀ q : ℚ, '.' ∈ (formatFixed2 q).data ∧ (fracPart (formatFixed2 q)).length = 2) ∧
    formatFixed2 (40712345 / 1000000 : ℚ) = "40.71" ∧
    (∀ (c : Client) (lat lon : ℚ) (units : String),
      goContains (weatherByCoordURL c lat lon units)
        ("?lat=" ++ formatFixed2 lat ++ "&lon=" ++ formatFixed2 lon) = true) ∧
    (∀ (c : Client) (lat lon : ℚ) (days : ℤ) (units : String),
      goContains (forecastByCoordURL c lat lon days units)
        ("?lat=" ++ formatFixed2 lat ++ "&lon=" ++ formatFixed2 lon) = true) ∧
    (∀ (c : Client) (lat1 lon1 lat2 lon2 : ℚ) (zoom : ℤ) (units : String),
      goContains (weatherByZoneURL c lat1 lon1 lat2 lon2 zoom units)
        ("?bbox=" ++ formatFixed2 lat1 ++ "," ++ formatFixed2 lon1 ++ "," ++
          formatFixed2 lat2 ++ "," ++ formatFixed2 lon2) = true) ∧
    (∀ (c : Client) (lat lon radius : ℚ) (units : String),
      goContains (weatherByRadiusURL c lat lon radius units)
        ("?lat=" ++ formatFixed2 lat) = true ∧
      goContains (weatherByRadiusURL c lat lon radius units)
        ("&lon=" ++ formatFixed2 lon) = true ∧
      goContains (weatherByRadiusURL c lat lon radius units)
        ("&cnt=" ++ formatFixed2 radius) = true) := by
  refine ⟨formatFixed2_frac, ?_, ?_, ?_, ?_, ?_⟩
  · rw [formatFixed2, show round ((40712345 / 1000000 : ℚ) * 100) = 4071 by
      rw [round_eq]; norm_num]
    decide
  · intro c lat lon units
    rw [weatherByCoordURL_decomp]
    exact goContains_append _ _ _
  · intro c lat lon days units
    rw [forecastByCoordURL_decomp]
    exact goContains_append _ _ _
  · intro c lat1 lon1 lat2 lon2 zoom units
    rw [weatherByZoneURL_decomp]
    exact goContains_append _ _ _
  · intro c lat lon radius units
    exact ⟨by rw [weatherByRadiusURL_decomp₁]; exact goContains_append _ _ _,
      by rw [weatherByRadiusURL_decomp₂]; exact goContains_append _ _ _,
      by rw [weatherByRadiusURL_decomp₃]; exact goContains_append _ _ _⟩

/-- C10: `WeatherByIds` on the empty id slice slices the empty joined string
out of range and panics (modelled by `none`) instead of returning an error
value; on every non-empty id slice the slice is in bounds and a URL is
produced. -/
theorem claim_C10_weatherByIds_empty_panics :
    (∀ (c : Client) (units : String), weatherByIdsURL c [] units = none) ∧
    ∀ (c : Client) (id : List ℤ) (units : String), id ≠ [] →
      (weatherByIdsURL c id units).isSome = true := by
  refine ⟨fun c units => rfl, fun c id units h => ?_⟩
  rw [weatherByIdsURL_eq_commaJoin c id units h]
  rfl

/-- Witness for C10: concrete empty-slice panic and a concrete in-bounds
non-empty slice. -/
theorem claim_C10_witness :
    weatherByIdsURL (NewClient "") [] "metric" = none ∧
    (weatherByIdsURL (NewClient "") [42] "metric").isSome = true :=
  ⟨claim_C10_weatherByIds_empty_panics.1 (NewClient "") "metric",
    claim_C10_weatherByIds_empty_panics.2 (NewClient "") [42] "metric" (by decide)⟩

/-- C2 (corrected, amended form): every failed call returns one of exactly
two caller-distinguishable error values — the fetch-failure message (which
covers both transport failure and the not-found marker) or the
decode-failure message — and nothing else; the not-found condition is not a
third distinguishable kind (see the counterexample theorem). -/
theorem claim_C2_two_error_kinds
    (c : Client) (url : String) (fetch : String → Except Unit String)
    (du : String → Except Unit Weather) (ds : String → Except Unit WeatherSet)
    (df : String → Except Unit Forecast) :
    ((∃ w, weatherGo c url fetch du = .ok w) ∨
      weatherGo c url fetch du = .error fetchWeatherErr ∨
      weatherGo c url fetch du = .error decodeWeatherErr) ∧
    ((∃ ws, weatherSetGo c url fetch ds = .ok ws) ∨
      weatherSetGo c url fetch ds = .error fetchWeatherErr ∨
      weatherSetGo c url fetch ds = .error decodeWeatherErr) ∧
    ((∃ f, forecastGo c url fetch df = .ok f) ∨
      forecastGo c url fetch df = .error fetchForecastErr ∨
      forecastGo c url fetch df = .error decodeForecastErr) := by
  refine ⟨?_, ?_, ?_⟩
  · simp only [weatherGo, dataGo]
    cases hf : fetch (appidURL c url) with
    | error e => simp
    | ok body =>
      by_cases hm : goContains body notFoundMarker
      · simp [hm]
      · cases hd : du body with
        | error e => simp [hm, hd]
        | ok w => exact Or.inl ⟨w, by simp [hm, hd]⟩
  · simp only [weatherSetGo, dataGo]
    cases hf : fetch (appidURL c url) with
    | error e => simp
    | ok body =>
      by_cases hm : goContains body notFoundMarker
      · simp [hm]
      · cases hd : ds body with
        | error e => simp [hm, hd]
        | ok ws => exact Or.inl ⟨ws, by simp [hm, hd]⟩
  · simp only [forecastGo, dataGo]
    cases hf : fetch (appidURL c url) with
    | error e => simp
    | ok body =>
      by_cases hm : goContains body notFoundMarker
      · simp [hm]
      · cases hd : df body with
        | error e => simp [hm, hd]
        | ok f => exact Or.inl ⟨f, by simp [hm, hd]⟩

/-- Counterexample to C2 as stated: a pure transport failure and a
successfully fetched not-found body produce the identical error value of
`weather`, so the not-found error is not distinguishable from the
fetch-failure error. -/
theorem claim_C2_counterexample :
    weatherGo (NewClient "") "url" (fun _ => .error ())
        (fun _ => .ok zeroWeather) = .error fetchWeatherErr ∧
    weatherGo (NewClient "") "url"
        (fun _ => .ok "\x7b\"cod\":\"404\"\x7d")
        (fun _ => .ok zeroWeather) = .error fetchWeatherErr :=
  ⟨rfl, rfl⟩

/-- C3: a response body containing the embedded not-found status marker
makes `weather`, `weatherSet` and `forecast` return an error whose value
does not depend on the structural decoder at all — decode is never
attempted. -/
theorem claim_C3_notfound_short_circuit
    (c : Client) (url body : String)
    (du du' : String → Except Unit Weather)
    (ds ds' : String → Except Unit WeatherSet)
    (df df' : String → Except Unit Forecast)
    (h : goContains body notFoundMarker = true) :
    (weatherGo c url (fun _ => .ok body) du = .error fetchWeatherErr ∧
      weatherGo c url (fun _ => .ok body) du =
        weatherGo c url (fun _ => .ok body) du') ∧
    (weatherSetGo c url (fun _ => .ok body) ds = .error fetchWeatherErr ∧
      weatherSetGo c url (fun _ => .ok body) ds =
        weatherSetGo c url (fun _ => .ok body) ds') ∧
    (forecastGo c url (fun _ => .ok body) df = .error fetchForecastErr ∧
      forecastGo c url (fun _ => .ok body) df =
        forecastGo c url (fun _ => .ok body) df') := by
  refine ⟨⟨?_, ?_⟩, ⟨?_, ?_⟩, ⟨?_, ?_⟩⟩ <;>
    simp [weatherGo, weatherSetGo, forecastGo, dataGo, h]

/-- Witness for C3: a concrete not-found body and two decoders that disagree
everywhere, with identical routine results. -/
theorem claim_C3_witness :
    weatherGo (NewClient "") "u"
        (fun _ => .ok "\x7b\"cod\":\"404\"\x7d")
        (fun _ => .ok zeroWeather) = .error fetchWeatherErr ∧
    weatherGo (NewClient "") "u"
        (fun _ => .ok "\x7b\"cod\":\"404\"\x7d")
        (fun _ => .ok zeroWeather) =
      weatherGo (NewClient "") "u"
        (fun _ => .ok "\x7b\"cod\":\"404\"\x7d")
        (fun _ => .error ()) :=
  (claim_C3_notfound_short_circuit (NewClient "") "u"
    "\x7b\"cod\":\"404\"\x7d"
    (fun _ => .ok zeroWeather) (fun _ => .error ())
    (fun _ => .error ()) (fun _ => .error ())
    (fun _ => .error ()) (fun _ => .error ())
    (by decide)).1

/-- C9: the `String` formatting method succeeds exactly when the condition
list is non-empty — a non-empty condition list is a required precondition
(the method reads index 0 of that list), and no other absent field can make
it fail, since every other field is rendered totally. -/
theorem claim_C9_weatherString_requires_condition
    (showTime : ℤ → String) (showFloat : ℚ → String) (w : Weather) :
    (weatherStringGo showTime showFloat w).isSome = true ↔ w.Weather ≠ [] := by
  cases h : w.Weather <;> simp [weatherStringGo, h]

theorem except_bind_ok {ε α β : Type} (e : Except ε α) (f : α → Except ε β)
    (b : β) (h : e.bind f = .ok b) : ∃ a, e = .ok a ∧ f a = .ok b := by
  cases e with
  | error e' => simp [Except.bind] at h
  | ok a => exact ⟨a, rfl, by simpa [Except.bind] using h⟩

theorem findKey_eq_none (p : String → Bool) (l : List (String × Json))
    (h : ∀ kv ∈ l, p kv.1 = false) : findKey p l = none := by
  induction l with
  | nil => rfl
  | cons kv rest ih =>
    obtain ⟨k, v⟩ := kv
    have hk := h (k, v) (List.mem_cons_self _ _)
    simp only [findKey, hk, Bool.false_eq_true, if_false]
    exact ih fun kv hm => h kv (List.mem_cons_of_mem _ hm)

theorem findKey_mem (p : String → Bool) (l : List (String × Json)) (v : Json)
    (h : findKey p l = some v) : ∃ k, (k, v) ∈ l ∧ p k = true := by
  induction l with
  | nil => simp [findKey] at h
  | cons kv rest ih =>
    obtain ⟨k', v'⟩ := kv
    by_cases hp : p k' = true
    · simp only [findKey, hp, if_true] at h
      exact ⟨k', by rw [Option.some.inj h]; exact List.mem_cons_self _ _, hp⟩
    · simp only [findKey, hp, Bool.false_eq_true, if_false] at h
      obtain ⟨k, hm, hpk⟩ := ih h
      exact ⟨k, List.mem_cons_of_mem _ hm, hpk⟩

theorem findKey_of_mem (p : String → Bool) (l : List (String × Json))
    (k : String) (v : Json)
    (hu : l.Pairwise (fun a b => ¬(p a.1 = true ∧ p b.1 = true)))
    (hm : (k, v) ∈ l) (hp : p k = true) : findKey p l = some v := by
  induction l with
  | nil => simp at hm
  | cons kv rest ih =>
    obtain ⟨k', v'⟩ := kv
    rw [List.pairwise_cons] at hu
    obtain ⟨hhead, htail⟩ := hu
    rcases List.mem_cons.mp hm with heq | hmem
    · obtain ⟨rfl, rfl⟩ := Prod.mk.injEq .. ▸ heq
      simp [findKey, hp]
    · have hk' : p k' = false := by
        by_contra hc
        have hc' : p k' = true := by revert hc; cases p k' <;> simp
        exact hhead (k, v) hmem ⟨hc', hp⟩
      simp only [findKey, hk', Bool.false_eq_true, if_false]
      exact ih htail hmem

theorem findKey_sublist (p : String → Bool) (l' l : List (String × Json))
    (hs : List.Sublist l' l)
    (hu : l.Pairwise (fun a b => ¬(p a.1 = true ∧ p b.1 = true))) :
    findKey p l' = none ∨ findKey p l' = findKey p l := by
  induction hs with
  | slnil => exact Or.inl rfl
  | @cons l₁ l₂ kv hsub ih =>
    obtain ⟨k, v⟩ := kv
    rw [List.pairwise_cons] at hu
    obtain ⟨hhead, htail⟩ := hu
    by_cases hp : p k = true
    · left
      have hrest : findKey p l₂ = none := findKey_eq_none p l₂ (fun kv' hm => by
        by_contra hc
        have hc' : p kv'.1 = true := by revert hc; cases p kv'.1 <;> simp
        exact hhead kv' hm ⟨hp, hc'⟩)
      rcases ih htail with h | h
      · exact h
      · rw [h, hrest]
    · rcases ih htail with h | h
      · exact Or.inl h
      · right
        rw [h]
        simp [findKey, hp]
  | @cons₂ l₁ l₂ kv hsub ih =>
    obtain ⟨k, v⟩ := kv
    rw [List.pairwise_cons] at hu
    obtain ⟨hhead, htail⟩ := hu
    by_cases hp : p k = true
    · right
      simp [findKey, hp]
    · rcases ih htail with h | h
      · left
        simpa [findKey, hp] using h
      · right
        simpa [findKey, hp] using h

theorem ciDistinct_pairwise (kvs : List (String × Json)) (key : String)
    (hd : ciDistinctKeys kvs) :
    kvs.Pairwise (fun a b => ¬((lowerStr a.1 == lowerStr key) = true ∧
      (lowerStr b.1 == lowerStr key) = true)) := by
  refine hd.imp ?_
  intro a b hne hab
  exact hne ((eq_of_beq hab.1).trans (eq_of_beq hab.2).symm)

theorem lookupGo_eq_findCI (kvs : List (String × Json)) (key : String)
    (hd : ciDistinctKeys kvs) :
    lookupGo kvs key = findKey (fun k => lowerStr k == lowerStr key) kvs := by
  unfold lookupGo
  cases hE : findKey (fun k => k == key) kvs with
  | none => rfl
  | some v =>
    obtain ⟨k, hmem, hpk⟩ := findKey_mem _ _ _ hE
    have hk : k = key := eq_of_beq hpk
    exact (findKey_of_mem _ _ k v (ciDistinct_pairwise kvs key hd) hmem
      (by rw [hk]; exact beq_self_eq_true _)).symm

theorem decodeField_sublist {α : Type} (kvs' kvs : List (String × Json))
    (key : String) (dec : Json → Except Unit α) (z : α)
    (hs : List.Sublist kvs' kvs) (hd : ciDistinctKeys kvs) (x : α)
    (h : decodeField kvs key dec z = .ok x) :
    ∃ y, decodeField kvs' key dec z = .ok y := by
  have hd' : ciDistinctKeys kvs' := List.Pairwise.sublist hs hd
  simp only [decodeField, lookupGo_eq_findCI kvs key hd] at h
  simp only [decodeField, lookupGo_eq_findCI kvs' key hd']
  rcases findKey_sublist (fun k => lowerStr k == lowerStr key) kvs' kvs hs
    (ciDistinct_pairwise kvs key hd) with hn | he
  · rw [hn]
    exact ⟨z, rfl⟩
  · rw [he]
    cases hfk : findKey (fun k => lowerStr k == lowerStr key) kvs with
    | none => exact ⟨z, rfl⟩
    | some v =>
      rw [hfk] at h
      exact ⟨x, h⟩

/-- C8: decoding a JSON object holding only a location id and name succeeds
and yields a `Weather` whose remaining fields all hold the Go zero value;
and, for objects without case-colliding duplicate keys, removing any set of
fields from an object that decodes successfully still decodes successfully —
absence of a field never by itself causes a decode failure. -/
theorem claim_C8_decode_missing_fields :
    unmarshalWeather (Json.obj [("id", Json.num 123), ("name", Json.str "Faro")]) =
      .ok { zeroWeather with Id := 123, Name := "Faro" } ∧
    ∀ (kvs kvs' : List (String × Json)) (w : Weather),
      List.Sublist kvs' kvs → ciDistinctKeys kvs →
      unmarshalWeather (Json.obj kvs) = .ok w →
      ∃ w', unmarshalWeather (Json.obj kvs') = .ok w' := by
  constructor
  · decide
  · intro kvs kvs' w hs hd h
    simp only [unmarshalWeather] at h ⊢
    obtain ⟨x1, h1, h⟩ := except_bind_ok _ _ _ h
    obtain ⟨x2, h2, h⟩ := except_bind_ok _ _ _ h
    obtain ⟨x3, h3, h⟩ := except_bind_ok _ _ _ h
    obtain ⟨x4, h4, h⟩ := except_bind_ok _ _ _ h
    obtain ⟨x5, h5, h⟩ := except_bind_ok _ _ _ h
    obtain ⟨x6, h6, h⟩ := except_bind_ok _ _ _ h
    obtain ⟨x7, h7, h⟩ := except_bind_ok _ _ _ h
    obtain ⟨x8, h8, h⟩ := except_bind_ok _ _ _ h
    obtain ⟨x9, h9, h⟩ := except_bind_ok _ _ _ h
    obtain ⟨x10, h10, h⟩ := except_bind_ok _ _ _ h
    obtain ⟨x11, h11, h⟩ := except_bind_ok _ _ _ h
    obtain ⟨y1, g1⟩ := decodeField_sublist _ _ _ _ _ hs hd _ h1
    obtain ⟨y2, g2⟩ := decodeField_sublist _ _ _ _ _ hs hd _ h2
    obtain ⟨y3, g3⟩ := decodeField_sublist _ _ _ _ _ hs hd _ h3
    obtain ⟨y4, g4⟩ := decodeField_sublist _ _ _ _ _ hs hd _ h4
    obtain ⟨y5, g5⟩ := decodeField_sublist _ _ _ _ _ hs hd _ h5
    obtain ⟨y6, g6⟩ := decodeField_sublist _ _ _ _ _ hs hd _ h6
    obtain ⟨y7, g7⟩ := decodeField_sublist _ _ _ _ _ hs hd _ h7
    obtain ⟨y8, g8⟩ := decodeField_sublist _ _ _ _ _ hs hd _ h8
    obtain ⟨y9, g9⟩ := decodeField_sublist _ _ _ _ _ hs hd _ h9
    obtain ⟨y10, g10⟩ := decodeField_sublist _ _ _ _ _ hs hd _ h10
    obtain ⟨y11, g11⟩ := decodeField_sublist _ _ _ _ _ hs hd _ h11
    refine ⟨⟨y1, y2, y3, y4, y5, y6, y7, y8, y9, y10, y11⟩, ?_⟩
    simp only [g1, g2, g3, g4, g5, g6, g7, g8, g9, g10, g11, Except.bind]

/-- Witness for C8: dropping the id field from the minimal object still
decodes successfully. -/
theorem claim_C8_witness :
    ∃ w', unmarshalWeather (Json.obj [("name", Json.str "Faro")]) = .ok w' :=
  claim_C8_decode_missing_fields.2
    [("id", Json.num 123), ("name", Json.str "Faro")]
    [("name", Json.str "Faro")]
    { zeroWeather with Id := 123, Name := "Faro" }
    (List.Sublist.cons _ (List.Sublist.refl _))
    (by unfold ciDistinctKeys; decide)
    claim_C8_decode_missing_fields.1

end Owm
